import Mathlib

/-!
Verification development for the pinflow-proxy repository.

The repository contains several near-duplicate iterations of one small HTTP
proxy (download a video, upload it to a remote file store, poll readiness,
ask a generative model for a relevance score, parse the answer, clean up).
This file gives a shallow embedding of the request handlers and helper
functions of the variants the claims cite, and proves or refutes each claim
against those embeddings.

Naming of the embedded variants:
- `V1` : first variant inside src/server.js (express app, lines 1-109)
- `V2` : second variant inside src/server.js (dependency-free, lines 110-311)
- `V3` : third variant inside src/server.js (lines 312-461)
- `V4` : fourth variant inside src/server.js (lines 462-629)
- `P0` : src/unnamed/part_000   - `P1` : src/unnamed/part_001
- `P2` : src/unnamed/part_002   - `P3` : src/unnamed/part_003
- `P4` : src/unnamed/part_004

JavaScript platform primitives (`JSON.parse`, `Number(...)`, string `slice`,
`Math.round`, `||` / `??` on values) are modelled explicitly below; each
model's doc comment states the modelled subset.  Machine time is modelled by
letting the i-th poll iteration of a sleep-based loop happen at elapsed time
i * interval, which is the idealised reading of `Date.now()` in those loops.
-/

/-- Characters significant to JSON and to the modelled string operations,
named by code point. -/
def quoteChar : Char := Char.ofNat 34

def backslashChar : Char := Char.ofNat 92

def lbraceChar : Char := Char.ofNat 123

def rbraceChar : Char := Char.ofNat 125

def lbrackChar : Char := Char.ofNat 91

def rbrackChar : Char := Char.ofNat 93

def slashChar : Char := Char.ofNat 47

def nlChar : Char := Char.ofNat 10

def tabChar : Char := Char.ofNat 9

def crChar : Char := Char.ofNat 13

/-- JSON whitespace (space, tab, newline, carriage return). -/
def isJsonWs (c : Char) : Bool :=
  c == ' ' || c == tabChar || c == nlChar || c == crChar

/-- Drop leading JSON whitespace. -/
def skipWs : List Char → List Char
  | [] => []
  | c :: cs => if isJsonWs c then skipWs cs else c :: cs

/-- `startsHere pat s` is true when `pat` is an initial segment of `s`. -/
def startsHere : List Char → List Char → Bool
  | [], _ => true
  | _ :: _, [] => false
  | p :: ps, c :: cs => p == c && startsHere ps cs

/-- `10 ^ n` over the integers, by structural recursion (kernel-reducible). -/
def pow10 : Nat → Int
  | 0 => 1
  | n + 1 => 10 * pow10 n

/-- A JS number as produced by the decimal literals this program handles:
the value `mant / 10 ^ exp`.  This decimal representation is exact for every
number the program's inputs and outputs contain, and all its operations are
integer arithmetic. -/
structure JNum where
  mant : Int
  exp : Nat
deriving DecidableEq, Repr

instance (n : Nat) : OfNat JNum n := ⟨⟨n, 0⟩⟩

/-- Whether the number is an integer (`Number.isInteger`). -/
def JNum.isInt (a : JNum) : Bool := a.mant.emod (pow10 a.exp) == 0

/-- The exact integer value of an integral number. -/
def JNum.toInt (a : JNum) : Int := a.mant.fdiv (pow10 a.exp)

/-- String emptiness via the character list (identical to `String.isEmpty`,
kept kernel-reducible). -/
def strEmpty (s : String) : Bool := s.data.isEmpty

/-- JS `String.prototype.trim`, via the character list. -/
def jsTrim (s : String) : String :=
  String.mk (((s.data.dropWhile Char.isWhitespace).reverse.dropWhile Char.isWhitespace).reverse)

/-- `s.startsWith pre`, via the character lists. -/
def jsStartsWith (s pre : String) : Bool := startsHere pre.data s.data

/-- `s.toLowerCase()`, via the character lists. -/
def strToLower (s : String) : String := String.mk (s.data.map Char.toLower)

/-- JSON value, the result type of the modelled `JSON.parse`. -/
inductive JsonVal where
  | jnull
  | jbool (b : Bool)
  | jnum (q : JNum)
  | jstr (s : String)
  | jarr (xs : List JsonVal)
  | jobj (fields : List (String × JsonVal))

/-- Body of a JSON string after the opening quote.  Models the common escape
sequences (quote, backslash, slash, n, t, r); an unsupported escape or a raw
control character makes the parse fail, as in `JSON.parse`.  `\u` escapes are
outside the modelled subset. -/
def pStringGo (acc : List Char) : List Char → Option (String × List Char)
  | [] => none
  | c :: rest =>
    if c == quoteChar then some (String.mk acc.reverse, rest)
    else if c == backslashChar then
      match rest with
      | [] => none
      | e :: rest2 =>
        if e == quoteChar then pStringGo (quoteChar :: acc) rest2
        else if e == backslashChar then pStringGo (backslashChar :: acc) rest2
        else if e == slashChar then pStringGo (slashChar :: acc) rest2
        else if e == 'n' then pStringGo (nlChar :: acc) rest2
        else if e == 't' then pStringGo (tabChar :: acc) rest2
        else if e == 'r' then pStringGo (crChar :: acc) rest2
        else none
    else if c.toNat < 32 then none
    else pStringGo (c :: acc) rest

/-- Digits to a natural number, most significant first. -/
def digitsToNat (ds : List Char) : Nat :=
  ds.foldl (fun n c => 10 * n + (c.toNat - 48)) 0

/-- JSON number: optional minus sign, digits, optional fraction.  Exponent
notation and the leading-zero restriction of the JSON grammar are outside the
modelled subset (no input considered in this file uses them). -/
def pNumber (cs : List Char) : Option (JNum × List Char) :=
  let signSplit : Bool × List Char :=
    match cs with
    | c :: rest => if c == '-' then (true, rest) else (false, cs)
    | [] => (false, cs)
  let neg := signSplit.1
  let cs1 := signSplit.2
  let ipSplit := cs1.span Char.isDigit
  let ds := ipSplit.1
  let cs2 := ipSplit.2
  if ds.isEmpty then none
  else
    let ip : Int := (digitsToNat ds : Nat)
    match cs2 with
    | c :: rest =>
      if c == '.' then
        let frSplit := rest.span Char.isDigit
        let fs := frSplit.1
        let cs3 := frSplit.2
        if fs.isEmpty then none
        else
          let m : Int := ip * pow10 fs.length + (digitsToNat fs : Nat)
          some (⟨cond neg (-m) m, fs.length⟩, cs3)
      else some (⟨cond neg (-ip) ip, 0⟩, cs2)
    | [] => some (⟨cond neg (-ip) ip, 0⟩, cs2)

mutual

/-- Recursive-descent JSON value parser, fuel-bounded.  The fuel passed by
`jsonParse` always suffices, so fuel exhaustion never decides an answer for
the inputs considered. -/
def pVal : Nat → List Char → Option (JsonVal × List Char)
  | 0, _ => none
  | fuel + 1, cs0 =>
    let cs := skipWs cs0
    match cs with
    | [] => none
    | c :: rest =>
      if c == lbraceChar then
        match skipWs rest with
        | d :: rest3 =>
          if d == rbraceChar then some (.jobj [], rest3)
          else pObjItems fuel [] (skipWs rest)
        | [] => none
      else if c == lbrackChar then
        match skipWs rest with
        | d :: rest3 =>
          if d == rbrackChar then some (.jarr [], rest3)
          else pArrItems fuel [] (skipWs rest)
        | [] => none
      else if c == quoteChar then
        match pStringGo [] rest with
        | some (s, r) => some (.jstr s, r)
        | none => none
      else if c == 't' then
        if startsHere "rue".data rest then some (.jbool true, rest.drop 3) else none
      else if c == 'f' then
        if startsHere "alse".data rest then some (.jbool false, rest.drop 4) else none
      else if c == 'n' then
        if startsHere "ull".data rest then some (.jnull, rest.drop 3) else none
      else
        match pNumber cs with
        | some (q, r) => some (.jnum q, r)
        | none => none

/-- Members of a JSON object after the opening brace (nonempty case). -/
def pObjItems : Nat → List (String × JsonVal) → List Char → Option (JsonVal × List Char)
  | 0, _, _ => none
  | fuel + 1, acc, cs0 =>
    match skipWs cs0 with
    | [] => none
    | c :: rest =>
      if c == quoteChar then
        match pStringGo [] rest with
        | some (k, r1) =>
          match skipWs r1 with
          | d :: r3 =>
            if d == ':' then
              match pVal fuel r3 with
              | some (v, r4) =>
                match skipWs r4 with
                | e :: r6 =>
                  if e == ',' then pObjItems fuel (acc ++ [(k, v)]) r6
                  else if e == rbraceChar then some (.jobj (acc ++ [(k, v)]), r6)
                  else none
                | [] => none
              | none => none
            else none
          | [] => none
        | none => none
      else none

/-- Elements of a JSON array after the opening bracket (nonempty case). -/
def pArrItems : Nat → List JsonVal → List Char → Option (JsonVal × List Char)
  | 0, _, _ => none
  | fuel + 1, acc, cs0 =>
    match pVal fuel (skipWs cs0) with
    | some (v, r1) =>
      match skipWs r1 with
      | e :: r2 =>
        if e == ',' then pArrItems fuel (acc ++ [v]) r2
        else if e == rbrackChar then some (.jarr (acc ++ [v]), r2)
        else none
      | [] => none
    | none => none

end

/-- Model of `JSON.parse`: parse one value, require only whitespace after it.
Returns `none` where `JSON.parse` throws. -/
def jsonParse (s : String) : Option JsonVal :=
  match pVal (2 * s.length + 8) s.data with
  | some (v, rest) => if (skipWs rest).isEmpty then some v else none
  | none => none

/-- Field lookup on a JSON object (`obj.k`): JS keeps the last duplicate key,
so the reversed field list is searched first.  Member access on non-objects
yields `undefined`, modelled as `none`; the one JS value on which member
access throws, `null`, is handled at its use sites. -/
def JsonVal.getField : JsonVal → String → Option JsonVal
  | .jobj fs, k => (fs.reverse.find? (fun p => p.1 == k)).map Prod.snd
  | _, _ => none

/-- Model of `Number(s)` for a string: whitespace-trimmed; empty gives 0;
otherwise a decimal literal with optional sign.  `none` stands for NaN.
Hex, exponent and Infinity literals are outside the modelled subset. -/
def jsStrToNum (s : String) : Option JNum :=
  let t := jsTrim s
  if strEmpty t then some 0
  else
    let body : List Char :=
      match t.data with
      | c :: rest => if c == '+' then rest else t.data
      | [] => t.data
    match pNumber body with
    | some (q, rest) => if rest.isEmpty then some q else none
    | none => none

/-- Model of JS `ToNumber` (the unary `+x` / `Number(x)` coercion) on a JSON
value, with `none` for `undefined` input and for a NaN result.  Arrays and
objects are modelled as NaN (no input considered here coerces a container). -/
def toNum : Option JsonVal → Option JNum
  | none => none
  | some .jnull => some 0
  | some (.jbool b) => some (if b then 1 else 0)
  | some (.jnum q) => some q
  | some (.jstr s) => jsStrToNum s
  | some (.jarr _) => none
  | some (.jobj _) => none

/-- `Math.round`: round half toward positive infinity
(`floor(q + 1/2) = fdiv (2 mant + 10^exp) (2 * 10^exp)`). -/
def jsRound (a : JNum) : Int := Int.fdiv (2 * a.mant + pow10 a.exp) (2 * pow10 a.exp)

/-- JS string `slice(0, n)` (count in code units; identical to characters for
the ASCII and BMP strings considered here). -/
def jsSlice (s : String) (n : Nat) : String := String.mk (s.data.take n)

/-- JS truthiness of a string-or-absent body field (`undefined` and the empty
string are falsy). -/
def jsTruthy? (o : Option String) : Bool :=
  match o with
  | none => false
  | some s => !(strEmpty s)

/-- JS `a || b` on string-or-absent values. -/
def jsOr (a b : Option String) : Option String :=
  if jsTruthy? a then a else b

/-- JS `a ?? b` on possibly-absent values (only `undefined`/`null` fall
through). -/
def jsNullish (a b : Option String) : Option String :=
  match a with
  | none => b
  | some s => some s

/-- JS truthiness of a JSON value. -/
def jsTruthyVal : JsonVal → Bool
  | .jnull => false
  | .jbool b => b
  | .jnum q => !(q.mant == 0)
  | .jstr s => !(strEmpty s)
  | .jarr _ => true
  | .jobj _ => true

/-- JS `x || d` where `x` may be `undefined`. -/
def jsOrVal (a : Option JsonVal) (d : JsonVal) : JsonVal :=
  match a with
  | none => d
  | some v => if jsTruthyVal v then v else d

/-- Model of JS `String(x)` on the values reaching it in this file: strings,
null, booleans and integral numbers.  Fractional numbers and containers are
outside the modelled subset (no considered input stringifies one). -/
def jsToString : JsonVal → String
  | .jstr s => s
  | .jnull => "null"
  | .jbool b => cond b "true" "false"
  | .jnum q => if q.isInt then toString q.toInt else ""
  | .jarr _ => ""
  | .jobj _ => ""

/-- `Number(x) || 0`: NaN (and 0 itself) gives 0. -/
def jsNumberOr0 (a : Option JsonVal) : JNum :=
  match toNum a with
  | none => 0
  | some q => q

/-- Structured score result with integer fields (part_002's shape). -/
structure ScoreResult where
  score : Int
  reason : String
  confidence : Int
deriving DecidableEq, Repr

/-- Score result with raw numeric fields as JS produces them (no integer
coercion), used by the variants that do not clamp. -/
structure NumScoreResult where
  score : JNum
  reason : String
  confidence : JNum
deriving DecidableEq, Repr

/-- All positions at which `pat` occurs in `cs`. -/
def subIdxList (pat cs : List Char) : List Nat :=
  (List.range (cs.length + 1)).filter (fun i => startsHere pat (cs.drop i))

/-- First occurrence of `pat` in `cs` (JS `indexOf` for substrings). -/
def firstSubIdx (pat cs : List Char) : Option Nat := (subIdxList pat cs).head?

/-- Last occurrence of `pat` in `cs` (JS `lastIndexOf`). -/
def lastSubIdx (pat cs : List Char) : Option Nat := (subIdxList pat cs).getLast?

namespace P2

/-- part_002 `clampInt(n, min, max)`: `Number.isFinite(+n) ? Math.round(+n)
: min`, then clamped.  The argument is the `ToNumber` coercion of the JS
value (`none` = NaN). -/
def clampInt (x : Option JNum) (lo hi : Int) : Int :=
  match x with
  | none => lo
  | some q =>
    let n := jsRound q
    if n < lo then lo else if n > hi then hi else n

/-- The global-replace of the fence regex in part_002's second parse attempt
(every occurrence of three backticks, optionally followed by `json`, is
removed). -/
def replaceFencesGo : Nat → List Char → List Char
  | 0, cs => cs
  | f + 1, cs =>
    match cs with
    | [] => []
    | c :: rest =>
      if startsHere "```json".data cs then replaceFencesGo f (cs.drop 7)
      else if startsHere "```".data cs then replaceFencesGo f (cs.drop 3)
      else c :: replaceFencesGo f rest

def replaceFences (s : String) : String :=
  String.mk (replaceFencesGo s.length s.data)

/-- Result of one poll of the files API inside `waitActive`: an HTTP failure
of the status query, or the reported state string (`j.state ||
"STATE_UNKNOWN"` already applied). -/
inductive PollRes where
  | httpErr (status : Nat)
  | st (s : String)

inductive WaitRes where
  | active (polls : Nat)
  | getFailed (status : Nat)
  | timeout
deriving DecidableEq, Repr

/-- part_002 `waitActive` loop body.  Iteration `i` runs at elapsed time
`600 * i` ms (the loop sleeps 600 ms between queries); `timeout` models the
thrown `GEN_FILE_NOT_ACTIVE`, `getFailed` the thrown `FILES_GET_FAILED`.
The fuel passed by `waitActive` exceeds the deadline's iteration bound, so
the fuel-exhaustion branch is unreachable. -/
def waitActiveGo (polls : Nat → PollRes) (timeoutMs : Nat) : Nat → Nat → WaitRes
  | 0, _ => .timeout
  | fuel + 1, i =>
    match polls i with
    | .httpErr s => .getFailed s
    | .st st =>
      if st == "ACTIVE" then .active (i + 1)
      else if 600 * i > timeoutMs then .timeout
      else waitActiveGo polls timeoutMs fuel (i + 1)

/-- part_002 `waitActive(fileName, timeoutMs = 15000)`. -/
def waitActive (polls : Nat → PollRes) : WaitRes :=
  waitActiveGo polls 15000 28 0

/-- The object produced by part_002's two-stage parse of the model text:
`JSON.parse(text)`, else `JSON.parse` of the fence-stripped trim, else `{}`. -/
def parsedObj (text : String) : JsonVal :=
  match jsonParse text with
  | some v => v
  | none =>
    match jsonParse (replaceFences (jsTrim text)) with
    | some v => v
    | none => .jobj []

/-- `clampInt(obj.score, 0, 10)`. -/
def scoreOf (v : JsonVal) : Int := clampInt (toNum (v.getField "score")) 0 10

/-- `clampInt(obj.confidence, 0, 100)`. -/
def confOf (v : JsonVal) : Int := clampInt (toNum (v.getField "confidence")) 0 100

/-- `typeof obj.reason === "string" && obj.reason.trim() ?
obj.reason.trim().slice(0, 200) : (score === 0 ? ... : ...)`. -/
def reasonOf (v : JsonVal) (score : Int) : String :=
  match v.getField "reason" with
  | some (.jstr s) =>
    if strEmpty (jsTrim s) then
      (if score == 0 then "No match with niche brief." else "Relevant.")
    else jsSlice (jsTrim s) 200
  | _ => (if score == 0 then "No match with niche brief." else "Relevant.")

/-- Whether the parsed value is JS `null`. -/
def isNullVal : JsonVal → Bool
  | .jnull => true
  | _ => false

/-- part_002 `generateScore` result coercion from the model text.  Returns
`none` when the parsed value is `null` (the JS member access `obj.score`
throws there and the request errors instead of producing a result). -/
def generateScoreResult (text : String) : Option ScoreResult :=
  let v := parsedObj text
  if isNullVal v then none
  else
    some { score := scoreOf v, reason := reasonOf v (scoreOf v),
           confidence := confOf v }

/-- Environment of one POST /score request of part_002: the request body
fields and the outcomes of the external calls. -/
structure Env where
  apiKey : String
  resolved_url : Option String
  resolvedUrl : Option String
  url : Option String
  nicheBrief : Option String
  niche : Option String
  dlThrows : Bool
  dlOk : Bool
  dlStatus : Nat
  upOk : Bool
  upStatus : Nat
  polls : Nat → PollRes
  genOk : Bool
  genStatus : Nat
  genText : String

/-- Observable outcome of one part_002 request: HTTP response and the
resource/effect bookkeeping the invariants are about. -/
structure Res where
  status : Nat
  errCode : String
  ok : Bool
  result : Option ScoreResult
  genCalled : Bool
  tmpCreated : Bool
  tmpUnlinkAttempted : Bool
  remoteCreated : Bool
  remoteDeleteAttempted : Bool
deriving DecidableEq, Repr

/-- Build the response after the try/finally: the finally block unlinks the
temp file iff `tempPath` was assigned, and — as written in part_002 — never
deletes the remote file handle. -/
def fin (tmpCreated remoteCreated genCalled : Bool) (status : Nat)
    (errCode : String) (ok : Bool) (result : Option ScoreResult) : Res :=
  { status := status, errCode := errCode, ok := ok, result := result,
    genCalled := genCalled, tmpCreated := tmpCreated,
    tmpUnlinkAttempted := tmpCreated, remoteCreated := remoteCreated,
    remoteDeleteAttempted := false }

/-- part_002 POST /score handler (body already parsed from JSON). -/
def handle (e : Env) : Res :=
  let url := jsOr (jsOr e.resolved_url e.resolvedUrl) e.url
  let niche :=
    match jsOr e.nicheBrief e.niche with
    | some s => s
    | none => ""
  if strEmpty e.apiKey then
    { status := 401, errCode := "API_KEY_MISSING", ok := false, result := none,
      genCalled := false, tmpCreated := false, tmpUnlinkAttempted := false,
      remoteCreated := false, remoteDeleteAttempted := false }
  else if !(jsTruthy? url) || strEmpty niche then
    { status := 400, errCode := "MISSING_FIELDS", ok := false, result := none,
      genCalled := false, tmpCreated := false, tmpUnlinkAttempted := false,
      remoteCreated := false, remoteDeleteAttempted := false }
  else if e.dlThrows then fin false false false 500 "GEN_INTERNAL" false none
  else if !e.dlOk then fin false false false 500 "DOWNLOAD_FAILED" false none
  else if !e.upOk then fin true false false 500 "UPLOAD_FAILED" false none
  else
    match waitActive e.polls with
    | .getFailed _ => fin true true false 500 "FILES_GET_FAILED" false none
    | .timeout => fin true true false 500 "GEN_FILE_NOT_ACTIVE" false none
    | .active _ =>
      if !e.genOk then fin true true true 500 "GEN_CALL_FAILED" false none
      else
        match generateScoreResult e.genText with
        | some r => fin true true true 200 "" true (some r)
        | none => fin true true true 500 "GEN_INTERNAL" false none

end P2

namespace V1

/-- Environment of one POST /score request of the first server.js variant:
request body fields and outcomes of the external calls. -/
structure Env where
  apiKey : String
  resolved_url : Option String
  niche : Option String
  fetchThrows : Bool
  fetchOk : Bool
  fetchStatus : Nat
  uploadThrows : Bool
  uploadUri : Option String
  uploadName : Option String
  pollThrows : Bool
  pollState : Nat → String
  genThrows : Bool
  genText : String

/-- Observable outcome of one request of the first variant. -/
structure Res where
  status : Nat
  code : String
  score : Option Int
  genCalled : Bool
  tmpCreated : Bool
  tmpRemoved : Bool
  remoteCreated : Bool
  remoteDeleteAttempted : Bool
deriving DecidableEq, Repr

/-- Build the response after the try/finally of the first variant: the
finally block always runs `fs.rm(tmpPath, force)` and attempts
`deleteFile(fileName)` whenever `fileName` was assigned a truthy name. -/
def fin (tmpCreated remoteCreated genCalled : Bool) (status : Nat)
    (code : String) (score : Option Int) : Res :=
  { status := status, code := code, score := score, genCalled := genCalled,
    tmpCreated := tmpCreated, tmpRemoved := true,
    remoteCreated := remoteCreated, remoteDeleteAttempted := remoteCreated }

/-- Final value of the `state` variable after the wait-for-ACTIVE loop of the
first variant: 30 polls, breaking on "ACTIVE", else the value observed at the
last iteration. -/
def loopFinalState (pollState : Nat → String) : String :=
  match (List.range 30).find? (fun i => pollState i == "ACTIVE") with
  | some _ => "ACTIVE"
  | none => pollState 29

/-- First-variant POST /score handler.  The two validation returns happen
before the try/finally, so they perform no cleanup (nothing was created);
every later return passes through the finally block, modelled by `fin`. -/
def handle (e : Env) : Res :=
  if strEmpty e.apiKey then
    { status := 500, code := "NO_API_KEY", score := none, genCalled := false,
      tmpCreated := false, tmpRemoved := false, remoteCreated := false,
      remoteDeleteAttempted := false }
  else if !(jsTruthy? e.resolved_url) || !(jsTruthy? e.niche) then
    { status := 400, code := "MISSING_FIELDS", score := none,
      genCalled := false, tmpCreated := false, tmpRemoved := false,
      remoteCreated := false, remoteDeleteAttempted := false }
  else if e.fetchThrows then fin false false false 500 "GEN_INTERNAL" none
  else if !e.fetchOk then fin false false false 502 "DL_FAILED" none
  else if e.uploadThrows then fin true false false 500 "GEN_INTERNAL" none
  else
    let nameOk := jsTruthy? e.uploadName
    if !(jsTruthy? e.uploadUri) || !nameOk then
      fin true nameOk false 500 "UPLOAD_FAILED" none
    else if e.pollThrows then fin true true false 500 "GEN_INTERNAL" none
    else if loopFinalState e.pollState != "ACTIVE" then
      fin true true false 500 "FILE_NOT_ACTIVE" none
    else if e.genThrows then fin true true true 500 "GEN_INTERNAL" none
    else
      match jsStrToNum (jsTrim e.genText) with
      | some q =>
        if q.isInt && decide (0 ≤ q.mant) && decide (q.mant ≤ 10 * pow10 q.exp) then
          fin true true true 200 "" (some q.toInt)
        else fin true true true 422 "PARSE_FAILED" none
      | none => fin true true true 422 "PARSE_FAILED" none

end V1

namespace V2

/-- `(body.resolved_url || body.url || "").trim()` of the second server.js
variant. -/
def videoUrlOf (resolved_url url : Option String) : String :=
  jsTrim (match jsOr (jsOr resolved_url url) (some "") with
   | some s => s
   | none => "")

/-- `(body.niche || body.nicheBrief || "").trim()`. -/
def nicheOf (niche nicheBrief : Option String) : String :=
  jsTrim (match jsOr (jsOr niche nicheBrief) (some "") with
   | some s => s
   | none => "")

/-- Outcome of the request-validation prefix of the second variant's POST
/score route, before any download.  Its `bad` helper always answers HTTP
500: `json(res, 500, \x7b ok:false, error: msg \x7d)`. -/
structure VRes where
  status : Nat
  error : String
  proceeded : Bool
deriving DecidableEq, Repr

def validate (apiKey : String) (resolved_url url niche nicheBrief : Option String) : VRes :=
  if strEmpty apiKey then ⟨500, "API_KEY_MISSING", false⟩
  else
    let videoUrl := videoUrlOf resolved_url url
    let nicheV := nicheOf niche nicheBrief
    if strEmpty videoUrl then ⟨500, "NO_URL", false⟩
    else if strEmpty nicheV then ⟨500, "NO_NICHE", false⟩
    else ⟨0, "", true⟩

/-- An HTTP response as seen by `downloadToBuffer`: status flag, declared
content type, and the body bytes (a `String` stands for the byte sequence). -/
structure FetchResp where
  ok : Bool
  status : Nat
  contentType : String
  body : String
deriving DecidableEq, Repr

inductive DlResult where
  | ok (buf : String) (mime : String)
  | err (code : String) (details : String)
deriving DecidableEq, Repr

/-- Second-variant `downloadToBuffer`: rejects non-ok status and `text/html`
content types; any other body — including an empty one — is returned as a
success (there is no zero-length check in this function). -/
def downloadToBuffer (r : FetchResp) : DlResult :=
  if !r.ok then .err ("DOWNLOAD_FAILED " ++ toString r.status) ""
  else
    let ct := strToLower r.contentType
    if jsStartsWith ct "text/html" then .err "DOWNLOAD_HTML" (jsSlice r.body 512)
    else .ok r.body (if strEmpty ct then "video/mp4" else ct)

/-- The regex `\x7b[\s\S]*\x7d` (greedy): matched iff some `\x7b` precedes
the last `\x7d`; the match runs from the first `\x7b` to the last `\x7d`. -/
def braceSlice (s : String) : Option String :=
  let cs := s.data
  match cs.findIdx? (fun c => c == lbraceChar) with
  | none => none
  | some i =>
    match cs.reverse.findIdx? (fun c => c == rbraceChar) with
    | none => none
    | some jr =>
      let j := cs.length - 1 - jr
      if i < j then some (String.mk ((cs.drop i).take (j - i + 1))) else none

/-- Second-variant `generateScore` result coercion, from the joined parts
text.  `text` is trimmed, the brace-extracted substring (or `"\x7b\x7d"`) is
parsed, and each field falls back independently; no clamping, rounding or
truncation is performed. -/
def genOut (textRaw : String) : NumScoreResult :=
  let text := jsTrim textRaw
  let raw :=
    match braceSlice text with
    | some m => m
    | none => "\x7b\x7d"
  let parsed :=
    match jsonParse raw with
    | some v => v
    | none => .jobj []
  { score :=
      (match toNum (parsed.getField "score") with
       | some q => q
       | none => 0),
    reason :=
      (match parsed.getField "reason" with
       | some (.jstr s) => s
       | _ => if strEmpty text then "No reason returned" else text),
    confidence :=
      (match toNum (parsed.getField "confidence") with
       | some q => q
       | none => 0) }

end V2

namespace P0

/-- Environment of one POST /fetch-and-upload request of part_000. -/
structure Env where
  resolved_url : Option String
  fetchOk : Bool
  fetchStatus : Nat
  contentType : Option String
  bodyLen : Nat
  uploadUri : Option String
deriving DecidableEq, Repr

structure Res where
  status : Nat
  error : String
deriving DecidableEq, Repr

/-- part_000 POST /fetch-and-upload handler: the zero-length check sits after
reading the body and before the size cap and upload; the declared content
type is only recorded, never branched on. -/
def handle (e : Env) : Res :=
  if !(jsTruthy? e.resolved_url) then ⟨400, "resolved_url required"⟩
  else if !e.fetchOk then ⟨502, "FETCH_FAILED"⟩
  else if e.bodyLen == 0 then ⟨502, "FETCH_FAILED_EMPTY"⟩
  else if e.bodyLen > 300 * 1024 * 1024 then ⟨413, "FILE_TOO_LARGE"⟩
  else if !(jsTruthy? e.uploadUri) then ⟨502, "UPLOAD_FAILED"⟩
  else ⟨200, ""⟩

end P0

namespace P1

def quoteStr : String := String.mk [quoteChar]

def scoreKey : List Char := (quoteStr ++ "score" ++ quoteStr).data

def reasonKey : List Char := (quoteStr ++ "reason" ++ quoteStr).data

def confKey : List Char := (quoteStr ++ "confidence" ++ quoteStr).data

/-- part_001 preprocessing of the model text inside `extractResultObject`:
trim, then strip a leading code fence (drop through the first newline, cut at
the last subsequent fence) when present. -/
def preprocess (text : String) : String :=
  let t := jsTrim text
  if jsStartsWith t "```" then
    let t1 :=
      match t.data.findIdx? (fun c => c == nlChar) with
      | some k => String.mk (t.data.drop (k + 1))
      | none => t
    match lastSubIdx "```".data t1.data with
    | some j => String.mk (t1.data.take j)
    | none => t1
  else t

/-- Model of part_001's salvage regex
`"score"\s*:\s*(\d+)[\s\S]*?"reason"\s*:\s*"([\s\S]*?)"[\s\S]*?"confidence"\s*:\s*(\d+)`:
first-occurrence, non-backtracking reading (the claims using it only rely on
the no-match case, or on inputs where the first occurrence is the match).
`\s` is modelled by the JSON whitespace class. -/
def scoreRegexMatch (t : String) : Option (Nat × String × Nat) :=
  let cs := t.data
  match firstSubIdx scoreKey cs with
  | none => none
  | some i =>
    match skipWs (cs.drop (i + scoreKey.length)) with
    | [] => none
    | c :: r2 =>
      if c == ':' then
        let r3 := skipWs r2
        let ds := (r3.span Char.isDigit).1
        let r4 := (r3.span Char.isDigit).2
        if ds.isEmpty then none
        else
          match firstSubIdx reasonKey r4 with
          | none => none
          | some j =>
            match skipWs (r4.drop (j + reasonKey.length)) with
            | [] => none
            | d :: r6 =>
              if d == ':' then
                match skipWs r6 with
                | [] => none
                | q :: r7 =>
                  if q == quoteChar then
                    let reasonChars := (r7.span (fun ch => !(ch == quoteChar))).1
                    match (r7.span (fun ch => !(ch == quoteChar))).2 with
                    | [] => none
                    | _ :: r9 =>
                      match firstSubIdx confKey r9 with
                      | none => none
                      | some k =>
                        match skipWs (r9.drop (k + confKey.length)) with
                        | [] => none
                        | e :: r11 =>
                          if e == ':' then
                            let cds := ((skipWs r11).span Char.isDigit).1
                            if cds.isEmpty then none
                            else some (digitsToNat ds, String.mk reasonChars, digitsToNat cds)
                          else none
                  else none
              else none
      else none

/-- `typeof obj === "object" && obj`: objects and arrays pass, `null` (typeof
"object" but falsy) and primitives do not. -/
def isObjLike : JsonVal → Bool
  | .jobj _ => true
  | .jarr _ => true
  | _ => false

/-- part_001 `extractResultObject`: strict parse, then regex salvage, then
the last-resort default object carrying the text as reason. -/
def extractResultObject (text : String) : JsonVal :=
  let t := preprocess text
  let salvage : JsonVal :=
    match scoreRegexMatch t with
    | some (sc, rs, cf) =>
      .jobj [("score", .jnum ⟨sc, 0⟩), ("reason", .jstr rs), ("confidence", .jnum ⟨cf, 0⟩)]
    | none => .jobj [("score", .jnum 0), ("reason", .jstr t), ("confidence", .jnum 0)]
  match jsonParse t with
  | some v => if isObjLike v then v else salvage
  | none => salvage

/-- The response-shaping in part_001 `handleScore`:
`score: Number(r.score) || 0`, `reason: String(r.reason || "").slice(0,500)`,
`confidence: Number(r.confidence) || 0`. -/
def wrapResult (v : JsonVal) : NumScoreResult :=
  { score := jsNumberOr0 (v.getField "score"),
    reason := jsSlice (jsToString (jsOrVal (v.getField "reason") (.jstr ""))) 500,
    confidence := jsNumberOr0 (v.getField "confidence") }

/-- The `result` object part_001 returns for a given model text. -/
def finalResult (text : String) : NumScoreResult :=
  wrapResult (extractResultObject text)

end P1

namespace V3

inductive Out where
  | active (polls : Nat)
  | failedErr (polls : Nat)
  | timeoutErr (polls : Nat)
deriving DecidableEq, Repr

/-- Third-variant `waitForActive` loop: poll, return on ACTIVE, throw
`file_failed` on FAILED, throw `file_not_active_timeout` past the deadline,
else sleep `pollMs`.  Iteration `i` runs at elapsed time `pollMs * i`.  The
fuel passed by `waitForActive` exceeds the deadline's iteration bound. -/
def waitGo (trace : Nat → String) (pollMs maxMs : Nat) : Nat → Nat → Out
  | 0, i => .timeoutErr i
  | fuel + 1, i =>
    let st := trace i
    if st == "ACTIVE" then .active (i + 1)
    else if st == "FAILED" then .failedErr (i + 1)
    else if pollMs * i > maxMs then .timeoutErr (i + 1)
    else waitGo trace pollMs maxMs fuel (i + 1)

/-- `waitForActive(fm, name)` with the default options pollMs=900,
maxMs=60000. -/
def waitForActive (trace : Nat → String) : Out :=
  waitGo trace 900 60000 70 0

end V3

namespace V4

inductive Out where
  | active (polls : Nat)
  | timeoutErr (polls : Nat)
deriving DecidableEq, Repr

/-- Fourth-variant `waitActive` loop: `while (elapsed < timeoutMs)` poll and
return on ACTIVE, else sleep 500 ms; after the loop throw
`file_not_active_timeout`.  There is no FAILED check.  Iteration `i` runs at
elapsed time `500 * i`; `timeoutErr` records how many polls ran. -/
def waitGo (trace : Nat → String) (timeoutMs : Nat) : Nat → Nat → Out
  | 0, i => .timeoutErr i
  | fuel + 1, i =>
    if 500 * i < timeoutMs then
      if trace i == "ACTIVE" then .active (i + 1)
      else waitGo trace timeoutMs fuel (i + 1)
    else .timeoutErr i

/-- `waitActive(fm, name)` with the default timeoutMs = 20000. -/
def waitActive (trace : Nat → String) : Out :=
  waitGo trace 20000 45 0

/-- Fourth-variant `normalizeBody`. -/
structure NormBody where
  url : Option String
  niche : String
deriving DecidableEq, Repr

def normalizeBody (resolved_url resolvedUrl url niche nicheBrief brief : Option String) :
    NormBody :=
  { url := jsOr (jsOr resolved_url resolvedUrl) url,
    niche :=
      match jsOr (jsOr (jsOr niche nicheBrief) brief) (some "") with
      | some s => s
      | none => "" }

end V4

namespace P4

structure WaitOut where
  finalState : String
  polls : Nat
deriving DecidableEq, Repr

/-- part_004 `uploadWithWait` poll loop: `while (Date.now() < deadline)` poll
(the observed state persists in `state`), break on ACTIVE, else sleep 600 ms.
There is no FAILED check.  Iteration `i` runs at elapsed time `600 * i`;
`state` starts as "PROCESSING". -/
def waitGo (trace : Nat → String) : Nat → Nat → String → WaitOut
  | 0, i, st => ⟨st, i⟩
  | fuel + 1, i, st =>
    if 600 * i < 30000 then
      let st2 := trace i
      if st2 == "ACTIVE" then ⟨st2, i + 1⟩
      else waitGo trace fuel (i + 1) st2
    else ⟨st, i⟩

def pollLoop (trace : Nat → String) : WaitOut :=
  waitGo trace 55 0 "PROCESSING"

inductive Out where
  | ok (polls : Nat)
  | uploadTimeout (finalState : String) (polls : Nat)
deriving DecidableEq, Repr

/-- part_004 `uploadWithWait` after the loop: any non-ACTIVE final state
throws `upload_timeout` (with the state attached), the one error this
function signals. -/
def uploadWithWait (trace : Nat → String) : Out :=
  let w := pollLoop trace
  if w.finalState == "ACTIVE" then .ok w.polls
  else .uploadTimeout w.finalState w.polls

end P4

namespace P3

def WINDOW_MS : Int := 60000

def MAX_RPM : Nat := 10

/-- `starts = starts.filter((t) => now - t < WINDOW_MS)`. -/
def pruneW (now : Int) (starts : List Int) : List Int :=
  starts.filter (fun t => now - t < WINDOW_MS)

inductive StepOut where
  | granted (starts : List Int)
  | waitFor (ms : Int) (starts : List Int)
deriving DecidableEq, Repr

/-- One pass of part_003 `takeSlot`'s `for(;;)` body, which runs atomically
between awaits: prune the window, record and return when below the limit,
else compute the sleep until the oldest recorded start leaves the window. -/
def takeSlotStep (now : Int) (starts : List Int) : StepOut :=
  let pruned := pruneW now starts
  if pruned.length < MAX_RPM then .granted (pruned ++ [now])
  else .waitFor (WINDOW_MS - (now - pruned.headI) + 5) pruned

/-- part_003 `takeSlot` as seen by a single caller with no concurrent
recorders: each wait advances the clock by exactly the computed sleep (the
soonest `setTimeout` can fire).  `none` is fuel exhaustion; the theorems
show fuel `starts.length + 1` always suffices. -/
def takeSlotLoop : Nat → Int → List Int → Option (Int × List Int)
  | 0, _, _ => none
  | fuel + 1, now, starts =>
    match takeSlotStep now starts with
    | .granted s => some (now, s)
    | .waitFor ms s => takeSlotLoop fuel (now + ms) s

/-- part_003 field normalization for the source URL
(`b.resolved_url ?? b.resolvedUrl ?? b.url ?? b.resolved ?? null`). -/
def pickUrl (resolved_url resolvedUrl url resolved : Option String) : Option String :=
  jsNullish (jsNullish (jsNullish resolved_url resolvedUrl) url) resolved

end P3

namespace P1

/-- part_001 field normalization for the source URL
(`body.resolved_url || body.resolvedUrl || body.url || body.link || null`). -/
def pickUrl (resolved_url resolvedUrl url link : Option String) : Option String :=
  jsOr (jsOr (jsOr (jsOr resolved_url resolvedUrl) url) link) none

end P1

section Helpers

/-- `clampInt` lands in `[lo, hi]` whenever `lo ≤ hi`. -/
theorem clampInt_bounds (x : Option JNum) (lo hi : Int) (h : lo ≤ hi) :
    lo ≤ P2.clampInt x lo hi ∧ P2.clampInt x lo hi ≤ hi := by
  unfold P2.clampInt
  cases x with
  | none => exact ⟨le_refl _, h⟩
  | some q =>
    dsimp only
    split_ifs <;> omega

/-- `slice(0, n)` yields at most `n` characters. -/
theorem jsSlice_length_le (s : String) (n : Nat) : (jsSlice s n).length ≤ n := by
  show (s.data.take n).length ≤ n
  rw [List.length_take]
  exact min_le_left _ _

/-- part_002's reason field never exceeds 200 characters. -/
theorem reasonOf_length_le (v : JsonVal) (score : Int) :
    (P2.reasonOf v score).length ≤ 200 := by
  unfold P2.reasonOf
  split
  · split_ifs <;> first | decide | exact jsSlice_length_le _ 200
  · split_ifs <;> decide

end Helpers

/-- C4: for the generation text
`\x7b"score": 7, "reason": "matches the niche", "confidence": 85\x7d`
all three cited parsers (part_002's `generateScore`, the second server.js
variant's `generateScore`, and part_001's `extractResultObject` as shaped by
`handleScore`) return exactly score 7, reason "matches the niche",
confidence 85. -/
theorem C4_exact_json_roundtrip :
    P2.generateScoreResult
        "\x7b\"score\": 7, \"reason\": \"matches the niche\", \"confidence\": 85\x7d"
      = some ⟨7, "matches the niche", 85⟩
    ∧ V2.genOut
        "\x7b\"score\": 7, \"reason\": \"matches the niche\", \"confidence\": 85\x7d"
      = ⟨7, "matches the niche", 85⟩
    ∧ P1.finalResult
        "\x7b\"score\": 7, \"reason\": \"matches the niche\", \"confidence\": 85\x7d"
      = ⟨7, "matches the niche", 85⟩ := by
  refine ⟨by decide, by decide, by decide⟩

/-- C5 counterexample: the code never rescales a fraction-like confidence by
100.  part_002's `clampInt` rounds the parsed confidence 0.85 to 1 (not 85),
and the second server.js variant's `generateScore` passes 999 through as the
score (no clamping to [0,10] at all). -/
theorem C5_no_fraction_rescale :
    P2.generateScoreResult "\x7b\"score\": 5, \"reason\": \"ok\", \"confidence\": 0.85\x7d"
      = some ⟨5, "ok", 1⟩
    ∧ some (⟨5, "ok", 1⟩ : ScoreResult) ≠ some ⟨5, "ok", 85⟩
    ∧ (V2.genOut "\x7b\"score\": 999, \"reason\": \"x\", \"confidence\": 50\x7d").score
      = ⟨999, 0⟩ := by
  refine ⟨by decide, by decide, by decide⟩

/-- C5 (amended): every result part_002's `generateScore` produces has an
integer score in [0,10], an integer confidence in [0,100] (rounded, never
rescaled by 100) and a reason of at most 200 characters; the second server.js
variant's `generateScore` substitutes 0 for non-finite fields but performs no
clamping or truncation (999 passes through as the score). -/
theorem C5_clamping_amended :
    (∀ text r, P2.generateScoreResult text = some r →
        0 ≤ r.score ∧ r.score ≤ 10 ∧ 0 ≤ r.confidence ∧ r.confidence ≤ 100 ∧
        r.reason.length ≤ 200)
    ∧ V2.genOut "\x7b\"score\": 999, \"reason\": \"y\", \"confidence\": 500\x7d"
      = ⟨⟨999, 0⟩, "y", ⟨500, 0⟩⟩ := by
  constructor
  · intro text r h
    simp only [P2.generateScoreResult] at h
    split at h
    · simp at h
    · injection h with h2
      subst h2
      refine ⟨?_, ?_, ?_, ?_, ?_⟩
      · exact (clampInt_bounds _ 0 10 (by norm_num)).1
      · exact (clampInt_bounds _ 0 10 (by norm_num)).2
      · exact (clampInt_bounds _ 0 100 (by norm_num)).1
      · exact (clampInt_bounds _ 0 100 (by norm_num)).2
      · exact reasonOf_length_le _ _
  · decide

theorem C5_clamping_amended_witness :
    0 ≤ (⟨5, "ok", 1⟩ : ScoreResult).score ∧ (⟨5, "ok", 1⟩ : ScoreResult).score ≤ 10 ∧
    0 ≤ (⟨5, "ok", 1⟩ : ScoreResult).confidence ∧
    (⟨5, "ok", 1⟩ : ScoreResult).confidence ≤ 100 ∧
    (⟨5, "ok", 1⟩ : ScoreResult).reason.length ≤ 200 :=
  C5_clamping_amended.1 "\x7b\"score\": 5, \"reason\": \"ok\", \"confidence\": 0.85\x7d"
    ⟨5, "ok", 1⟩ (by decide)

/-- C8 counterexample: the second server.js variant's `downloadToBuffer` has
no zero-length check — an empty body with a non-HTML content type is returned
as a success, and an empty body with an HTML content type fails with
DOWNLOAD_HTML, not with an empty-body code. -/
theorem C8_empty_body_not_rejected_v2 :
    V2.downloadToBuffer ⟨true, 200, "video/mp4", ""⟩ = V2.DlResult.ok "" "video/mp4"
    ∧ V2.downloadToBuffer ⟨true, 200, "text/html", ""⟩
      = V2.DlResult.err "DOWNLOAD_HTML" "" := by
  refine ⟨by decide, by decide⟩

/-- C8 (amended): only part_000's /fetch-and-upload rejects zero-length
bodies; there the code FETCH_FAILED_EMPTY (HTTP 502) is returned for every
declared content type.  The second server.js variant's `downloadToBuffer`
accepts an empty non-HTML body. -/
theorem C8_empty_body_amended :
    (∀ e : P0.Env, jsTruthy? e.resolved_url = true → e.fetchOk = true → e.bodyLen = 0 →
        P0.handle e = ⟨502, "FETCH_FAILED_EMPTY"⟩)
    ∧ V2.downloadToBuffer ⟨true, 200, "application/octet-stream", ""⟩
      = V2.DlResult.ok "" "application/octet-stream" := by
  constructor
  · intro e h1 h2 h3
    simp [P0.handle, h1, h2, h3]
  · decide

theorem C8_empty_body_amended_witness :
    P0.handle ⟨some "http://x", true, 200, some "text/html", 0, some "u"⟩
      = ⟨502, "FETCH_FAILED_EMPTY"⟩ :=
  C8_empty_body_amended.1 ⟨some "http://x", true, 200, some "text/html", 0, some "u"⟩
    (by decide) (by decide) (by decide)

/-- C2 counterexample: in the second server.js variant a missing source URL
or a missing niche is answered through its `bad` helper, which always sends
HTTP 500 — here with codes NO_URL and NO_NICHE — contradicting "status 400
... never a 500". -/
theorem C2_missing_url_is_500_in_v2 :
    V2.validate "key" none none (some "travel vlogs") none = ⟨500, "NO_URL", false⟩
    ∧ V2.validate "key" (some "https://v.example/a.mp4") none none none
      = ⟨500, "NO_NICHE", false⟩
    ∧ (500 : Nat) ≠ 400 := by
  refine ⟨by decide, by decide, by decide⟩

/-- C2 (amended): the first server.js variant answers 400 MISSING_FIELDS when
either required field is missing (given a configured key); the second variant
answers 500 with the distinguishable codes NO_URL / NO_NICHE. -/
theorem C2_missing_fields_amended :
    (∀ e : V1.Env, strEmpty e.apiKey = false →
        (jsTruthy? e.resolved_url = false ∨ jsTruthy? e.niche = false) →
        (V1.handle e).status = 400 ∧ (V1.handle e).code = "MISSING_FIELDS")
    ∧ (∀ k r u n nb, strEmpty k = false →
        strEmpty (V2.videoUrlOf r u) = true →
        V2.validate k r u n nb = ⟨500, "NO_URL", false⟩)
    ∧ (∀ k r u n nb, strEmpty k = false →
        strEmpty (V2.videoUrlOf r u) = false →
        strEmpty (V2.nicheOf n nb) = true →
        V2.validate k r u n nb = ⟨500, "NO_NICHE", false⟩) := by
  refine ⟨?_, ?_, ?_⟩
  · intro e hk h2
    rcases h2 with h | h <;> simp [V1.handle, hk, h]
  · intro k r u n nb hk hu
    simp [V2.validate, hk, hu]
  · intro k r u n nb hk hu hn
    simp [V2.validate, hk, hu, hn]

theorem C2_missing_fields_amended_witness :
    (V1.handle ⟨"key", none, some "cats", false, true, 200, false, none, none, false,
        fun _ => "ACTIVE", false, "7"⟩).status = 400
    ∧ (V1.handle ⟨"key", none, some "cats", false, true, 200, false, none, none, false,
        fun _ => "ACTIVE", false, "7"⟩).code = "MISSING_FIELDS" :=
  C2_missing_fields_amended.1 ⟨"key", none, some "cats", false, true, 200, false, none,
    none, false, fun _ => "ACTIVE", false, "7"⟩ (by decide) (Or.inl (by decide))

/-- C1 counterexample: a fully successful part_002 request (download, upload,
ACTIVE at the first poll, generation returning well-formed JSON) returns 200
with the remote file handle created and never deleted — part_002's finally
block only unlinks the local temp file, so the claim fails on this input. -/
theorem C1_remote_handle_leaked_part_002 :
    (P2.handle ⟨"key", some "https://v.example/a.mp4", none, none, some "cat videos", none,
        false, true, 200, true, 200, fun _ => .st "ACTIVE", true, 200,
        "\x7b\"score\": 7, \"reason\": \"matches the niche\", \"confidence\": 85\x7d"⟩).status
      = 200
    ∧ (P2.handle ⟨"key", some "https://v.example/a.mp4", none, none, some "cat videos", none,
        false, true, 200, true, 200, fun _ => .st "ACTIVE", true, 200,
        "\x7b\"score\": 7, \"reason\": \"matches the niche\", \"confidence\": 85\x7d"⟩).remoteCreated
      = true
    ∧ (P2.handle ⟨"key", some "https://v.example/a.mp4", none, none, some "cat videos", none,
        false, true, 200, true, 200, fun _ => .st "ACTIVE", true, 200,
        "\x7b\"score\": 7, \"reason\": \"matches the niche\", \"confidence\": 85\x7d"⟩).remoteDeleteAttempted
      = false := by
  refine ⟨by decide, by decide, by decide⟩

set_option maxHeartbeats 4000000 in
/-- C1 (amended): in the first server.js variant every path that created the
temp file removes it and every path that obtained a remote handle attempts
its deletion before returning; in part_002 every path that created the temp
file unlinks it, but no path ever deletes the remote handle. -/
theorem C1_cleanup_amended :
    (∀ e : V1.Env,
        ((V1.handle e).tmpCreated = true → (V1.handle e).tmpRemoved = true)
        ∧ ((V1.handle e).remoteCreated = true → (V1.handle e).remoteDeleteAttempted = true))
    ∧ (∀ e : P2.Env,
        ((P2.handle e).tmpCreated = true → (P2.handle e).tmpUnlinkAttempted = true)
        ∧ (P2.handle e).remoteDeleteAttempted = false) := by
  constructor
  · intro e
    refine ⟨?_, ?_⟩ <;>
      · simp only [V1.handle]
        repeat' split
        all_goals intro h
        all_goals first | rfl | exact h
  · intro e
    refine ⟨?_, ?_⟩
    · simp only [P2.handle]
      repeat' split
      all_goals intro h
      all_goals first | rfl | exact h
    · simp only [P2.handle]
      repeat' split
      all_goals rfl

theorem C1_cleanup_amended_witness :
    ((V1.handle ⟨"key", some "https://v.example/a.mp4", some "cats", false, true, 200,
        false, some "https://files/abc", some "files/abc", false, fun _ => "ACTIVE",
        false, "7"⟩).tmpCreated = true →
      (V1.handle ⟨"key", some "https://v.example/a.mp4", some "cats", false, true, 200,
        false, some "https://files/abc", some "files/abc", false, fun _ => "ACTIVE",
        false, "7"⟩).tmpRemoved = true)
    ∧ ((V1.handle ⟨"key", some "https://v.example/a.mp4", some "cats", false, true, 200,
        false, some "https://files/abc", some "files/abc", false, fun _ => "ACTIVE",
        false, "7"⟩).remoteCreated = true →
      (V1.handle ⟨"key", some "https://v.example/a.mp4", some "cats", false, true, 200,
        false, some "https://files/abc", some "files/abc", false, fun _ => "ACTIVE",
        false, "7"⟩).remoteDeleteAttempted = true) :=
  C1_cleanup_amended.1 ⟨"key", some "https://v.example/a.mp4", some "cats", false, true,
    200, false, some "https://files/abc", some "files/abc", false, fun _ => "ACTIVE",
    false, "7"⟩

/-- When no poll among the 30 observes ACTIVE, the first variant's wait loop
ends with the state observed at its last iteration. -/
theorem loopFinalState_of_never (f : Nat → String) (h : ∀ i, i < 30 → f i ≠ "ACTIVE") :
    V1.loopFinalState f = f 29 := by
  have hn : (List.range 30).find? (fun i => f i == "ACTIVE") = none := by
    rw [List.find?_eq_none]
    intro x hx
    simp only [List.mem_range] at hx
    simpa using h x hx
  unfold V1.loopFinalState
  rw [hn]

/-- part_002's `waitActive` signals the timeout when every poll within the
deadline (iterations 0..26) reports a non-ACTIVE state. -/
theorem waitActive_timeout (polls : Nat → P2.PollRes)
    (h : ∀ i, i ≤ 26 → ∃ s, polls i = P2.PollRes.st s ∧ s ≠ "ACTIVE") :
    P2.waitActive polls = P2.WaitRes.timeout := by
  have main : ∀ fuel i, 27 ≤ i + fuel → i ≤ 26 →
      P2.waitActiveGo polls 15000 fuel i = P2.WaitRes.timeout := by
    intro fuel
    induction fuel with
    | zero => intro i h1 h2; omega
    | succ f ih =>
      intro i h1 h2
      obtain ⟨s, hs, hne⟩ := h i h2
      have hbeq : (s == "ACTIVE") = false := beq_eq_false_iff_ne.mpr hne
      by_cases ht : 600 * i > 15000
      · simp [P2.waitActiveGo, hs, hbeq, ht]
      · simp only [P2.waitActiveGo, hs, hbeq, Bool.false_eq_true, if_false, ht]
        exact ih (i + 1) (by omega) (by omega)
  exact main 28 0 (by omega) (by omega)

/-- C3: when the handle is never observed ACTIVE within the polling deadline,
the first server.js variant answers 500 FILE_NOT_ACTIVE and part_002 answers
500 GEN_FILE_NOT_ACTIVE, and neither makes a generation call. -/
theorem C3_timeout_no_generation :
    (∀ e : V1.Env,
        strEmpty e.apiKey = false → jsTruthy? e.resolved_url = true →
        jsTruthy? e.niche = true → e.fetchThrows = false → e.fetchOk = true →
        e.uploadThrows = false → jsTruthy? e.uploadUri = true →
        jsTruthy? e.uploadName = true → e.pollThrows = false →
        (∀ i, i < 30 → e.pollState i ≠ "ACTIVE") →
        (V1.handle e).status = 500 ∧ (V1.handle e).code = "FILE_NOT_ACTIVE"
          ∧ (V1.handle e).genCalled = false)
    ∧ (∀ e : P2.Env,
        strEmpty e.apiKey = false → jsTruthy? e.resolved_url = true →
        jsTruthy? e.nicheBrief = true → e.dlThrows = false → e.dlOk = true →
        e.upOk = true →
        (∀ i, i ≤ 26 → ∃ s, e.polls i = P2.PollRes.st s ∧ s ≠ "ACTIVE") →
        (P2.handle e).status = 500 ∧ (P2.handle e).errCode = "GEN_FILE_NOT_ACTIVE"
          ∧ (P2.handle e).genCalled = false) := by
  constructor
  · intro e hk hu hn hft hfo hut huu hun hpt hp
    have hloop := loopFinalState_of_never e.pollState hp
    have h29 := hp 29 (by omega)
    simp [V1.handle, V1.fin, hk, hu, hn, hft, hfo, hut, huu, hun, hpt, hloop, h29]
  · intro e hk hu hnb hdt hdo huo hp
    have hwa := waitActive_timeout e.polls hp
    cases hnbv : e.nicheBrief with
    | none => rw [hnbv] at hnb; simp [jsTruthy?] at hnb
    | some s =>
      rw [hnbv] at hnb
      simp only [jsTruthy?, Bool.not_eq_true'] at hnb
      have hts : jsTruthy? (some s) = true := by simp [jsTruthy?, hnb]
      simp [P2.handle, P2.fin, jsOr, hk, hu, hnbv, hnb, hts, hdt, hdo, huo, hwa]

theorem C3_timeout_no_generation_witness :
    ((V1.handle ⟨"key", some "https://v.example/a.mp4", some "cats", false, true, 200,
        false, some "https://files/abc", some "files/abc", false, fun _ => "PROCESSING",
        false, "7"⟩).status = 500
      ∧ (V1.handle ⟨"key", some "https://v.example/a.mp4", some "cats", false, true, 200,
        false, some "https://files/abc", some "files/abc", false, fun _ => "PROCESSING",
        false, "7"⟩).code = "FILE_NOT_ACTIVE"
      ∧ (V1.handle ⟨"key", some "https://v.example/a.mp4", some "cats", false, true, 200,
        false, some "https://files/abc", some "files/abc", false, fun _ => "PROCESSING",
        false, "7"⟩).genCalled = false)
    ∧ ((P2.handle ⟨"key", some "https://v.example/a.mp4", none, none, some "cats", none,
        false, true, 200, true, 200, fun _ => P2.PollRes.st "PROCESSING", true, 200,
        "irrelevant"⟩).status = 500
      ∧ (P2.handle ⟨"key", some "https://v.example/a.mp4", none, none, some "cats", none,
        false, true, 200, true, 200, fun _ => P2.PollRes.st "PROCESSING", true, 200,
        "irrelevant"⟩).errCode = "GEN_FILE_NOT_ACTIVE"
      ∧ (P2.handle ⟨"key", some "https://v.example/a.mp4", none, none, some "cats", none,
        false, true, 200, true, 200, fun _ => P2.PollRes.st "PROCESSING", true, 200,
        "irrelevant"⟩).genCalled = false) :=
  ⟨C3_timeout_no_generation.1 ⟨"key", some "https://v.example/a.mp4", some "cats", false,
      true, 200, false, some "https://files/abc", some "files/abc", false,
      fun _ => "PROCESSING", false, "7"⟩ (by decide) (by decide) (by decide) (by decide)
      (by decide) (by decide) (by decide) (by decide) (by decide)
      (fun i _ => (by decide : ("PROCESSING" : String) ≠ "ACTIVE")),
   C3_timeout_no_generation.2 ⟨"key", some "https://v.example/a.mp4", none, none,
      some "cats", none, false, true, 200, true, 200,
      fun _ => P2.PollRes.st "PROCESSING", true, 200, "irrelevant"⟩ (by decide) (by decide)
      (by decide) (by decide) (by decide) (by decide)
      (fun i _ => ⟨"PROCESSING", rfl, by decide⟩)⟩

/-- C6 counterexample: in the first server.js variant a generation response
of non-JSON free text (no braces) does not degrade to a default result — the
request fails with HTTP 422 and code PARSE_FAILED. -/
theorem C6_v1_parse_failed_422 :
    (V1.handle ⟨"key", some "https://v.example/a.mp4", some "cats", false, true, 200,
        false, some "https://files/abc", some "files/abc", false, fun _ => "ACTIVE",
        false, "Sure! This video is about cats."⟩).status = 422
    ∧ (V1.handle ⟨"key", some "https://v.example/a.mp4", some "cats", false, true, 200,
        false, some "https://files/abc", some "files/abc", false, fun _ => "ACTIVE",
        false, "Sure! This video is about cats."⟩).code = "PARSE_FAILED" := by
  refine ⟨by decide, by decide⟩

/-- A pattern starting with a character that does not occur in the text has
no occurrence. -/
theorem firstSubIdx_none_of_head_not_mem (p : Char) (ps cs : List Char)
    (h : p ∉ cs) : firstSubIdx (p :: ps) cs = none := by
  unfold firstSubIdx subIdxList
  rw [List.head?_eq_none_iff, List.filter_eq_nil_iff]
  intro i _
  cases hd : cs.drop i with
  | nil => simp [startsHere, hd]
  | cons c rest =>
    simp only [hd, startsHere, Bool.and_eq_true, beq_iff_eq, not_and]
    intro hpc
    subst hpc
    exact absurd (List.drop_subset i cs (hd ▸ List.mem_cons_self p rest)) h

/-- part_001's salvage regex cannot match a text containing no double quote
(its pattern opens with a quoted key). -/
theorem scoreRegexMatch_none_of_no_quote (t : String) (h : quoteChar ∉ t.data) :
    P1.scoreRegexMatch t = none := by
  have hk : P1.scoreKey = quoteChar :: ("score".data ++ [quoteChar]) := by decide
  simp only [P1.scoreRegexMatch]
  rw [hk]
  rw [firstSubIdx_none_of_head_not_mem quoteChar ("score".data ++ [quoteChar]) t.data h]

/-- `strEmpty` characterises the empty string. -/
theorem strEmpty_iff (s : String) : strEmpty s = true ↔ s = "" := by
  constructor
  · intro h
    cases s with
    | mk data =>
      have hd : data = [] := by simpa [strEmpty] using h
      rw [hd]
  · intro h
    subst h
    rfl

/-- C6 (amended): in part_001 a model text whose preprocessed form is not
JSON and contains no double quote (hence no braces and no salvageable
key-value pattern) degrades to the default result — score 0, confidence 0,
reason the 500-character prefix of the preprocessed text; in the first
server.js variant an unparsable model text instead fails the request with
HTTP 422 and code PARSE_FAILED. -/
theorem C6_fallback_amended :
    (∀ text : String,
        (jsonParse (P1.preprocess text)).isNone = true →
        quoteChar ∉ (P1.preprocess text).data →
        P1.finalResult text = ⟨0, jsSlice (P1.preprocess text) 500, 0⟩)
    ∧ (∀ e : V1.Env,
        strEmpty e.apiKey = false → jsTruthy? e.resolved_url = true →
        jsTruthy? e.niche = true → e.fetchThrows = false → e.fetchOk = true →
        e.uploadThrows = false → jsTruthy? e.uploadUri = true →
        jsTruthy? e.uploadName = true → e.pollThrows = false →
        V1.loopFinalState e.pollState = "ACTIVE" → e.genThrows = false →
        jsStrToNum (jsTrim e.genText) = none →
        (V1.handle e).status = 422 ∧ (V1.handle e).code = "PARSE_FAILED") := by
  constructor
  · intro text h1 h2
    rw [Option.isNone_iff_eq_none] at h1
    have hreg := scoreRegexMatch_none_of_no_quote (P1.preprocess text) h2
    simp only [P1.finalResult, P1.extractResultObject, h1, hreg]
    by_cases hemp : strEmpty (P1.preprocess text) = true
    · rw [strEmpty_iff] at hemp
      rw [hemp]
      decide
    · have hemp2 : strEmpty (P1.preprocess text) = false := by
        simpa using hemp
      simp [P1.wrapResult, JsonVal.getField, jsNumberOr0, toNum, jsOrVal,
        jsTruthyVal, jsToString, hemp2]
  · intro e hk hu hn hft hfo hut huu hun hpt hla hgt hnum
    simp [V1.handle, V1.fin, hk, hu, hn, hft, hfo, hut, huu, hun, hpt, hla, hgt, hnum]

theorem C6_fallback_amended_witness :
    P1.finalResult "Sure! This video is about cats."
      = ⟨0, jsSlice (P1.preprocess "Sure! This video is about cats.") 500, 0⟩ :=
  C6_fallback_amended.1 "Sure! This video is about cats." (by decide) (by decide)

/-- C7 counterexample: the fourth server.js variant's `waitActive` has no
FAILED check — a handle already FAILED at the very first poll is polled 40
times (the full 20 s deadline) and the outcome is the identical
`file_not_active_timeout` error produced for a handle that merely stays
PROCESSING, so the Failed condition is neither aborted on nor
distinguishable. -/
theorem C7_failed_not_aborted_v4 :
    V4.waitActive (fun _ => "FAILED") = V4.Out.timeoutErr 40
    ∧ V4.waitActive (fun _ => "PROCESSING") = V4.Out.timeoutErr 40 := by
  refine ⟨by decide, by decide⟩

/-- The third variant's `waitForActive` throws `file_failed` at the very
poll that observes FAILED, with no further query or sleep. -/
theorem waitForActive_aborts_on_failed (trace : Nat → String) (i : Nat)
    (hpre : ∀ j, j < i → trace j ≠ "ACTIVE" ∧ trace j ≠ "FAILED" ∧ 900 * j ≤ 60000)
    (hi : trace i = "FAILED") :
    V3.waitForActive trace = V3.Out.failedErr (i + 1) := by
  have hle : i ≤ 67 := by
    by_contra hgt
    push_neg at hgt
    have := (hpre 67 (by omega)).2.2
    omega
  have main : ∀ fuel k, k ≤ i → i < k + fuel →
      V3.waitGo trace 900 60000 fuel k = V3.Out.failedErr (i + 1) := by
    intro fuel
    induction fuel with
    | zero => intro k hk hik; omega
    | succ f ih =>
      intro k hk hik
      by_cases hki : k = i
      · subst hki
        simp [V3.waitGo, hi]
      · have hk2 : k < i := by omega
        obtain ⟨hna, hnf, ht⟩ := hpre k hk2
        have hA : (trace k == "ACTIVE") = false := beq_eq_false_iff_ne.mpr hna
        have hF : (trace k == "FAILED") = false := beq_eq_false_iff_ne.mpr hnf
        have hT : ¬ (900 * k > 60000) := by omega
        simp only [V3.waitGo, hA, hF, Bool.false_eq_true, if_false]
        rw [if_neg hT]
        exact ih (k + 1) (by omega) (by omega)
  exact main 70 0 (by omega) (by omega)

/-- C7 (amended): the third variant's `waitForActive` aborts at the poll
that observes FAILED, with the `file_failed` outcome distinct from its
timeout outcome; the fourth variant's `waitActive` and part_004's
`uploadWithWait` have no FAILED check — a handle FAILED from the first poll
is queried until the deadline (40 and 50 polls) and reported through the
same timeout error as a handle that never became ready. -/
theorem C7_failed_handling_amended :
    (∀ trace : Nat → String, ∀ i : Nat,
        (∀ j, j < i → trace j ≠ "ACTIVE" ∧ trace j ≠ "FAILED" ∧ 900 * j ≤ 60000) →
        trace i = "FAILED" →
        V3.waitForActive trace = V3.Out.failedErr (i + 1))
    ∧ V3.waitForActive (fun _ => "PROCESSING") = V3.Out.timeoutErr 68
    ∧ V4.waitActive (fun _ => "FAILED") = V4.Out.timeoutErr 40
    ∧ V4.waitActive (fun _ => "PROCESSING") = V4.Out.timeoutErr 40
    ∧ P4.uploadWithWait (fun _ => "FAILED") = P4.Out.uploadTimeout "FAILED" 50 := by
  refine ⟨waitForActive_aborts_on_failed, by decide, by decide, by decide, by decide⟩

theorem C7_failed_handling_amended_witness :
    V3.waitForActive (fun _ => "FAILED") = V3.Out.failedErr 1 :=
  C7_failed_handling_amended.1 (fun _ => "FAILED") 0
    (fun j hj => absurd hj (Nat.not_lt_zero j)) rfl

/-- A nonempty string is not `strEmpty`. -/
theorem strEmpty_false (s : String) (h : s ≠ "") : strEmpty s = false := by
  cases hs : strEmpty s
  · rfl
  · exact absurd ((strEmpty_iff s).mp hs) h

/-- C9: the source URL is selected with the fixed precedence resolved_url,
then resolvedUrl, then url, in the fourth variant's `normalizeBody` (`||`
chain), part_003's normalization (`??` chain) and part_001's (`||` chain):
a nonempty resolved_url always wins, even when url is also present. -/
theorem C9_url_precedence :
    (∀ r ru u n nb br, r ≠ "" →
        (V4.normalizeBody (some r) ru u n nb br).url = some r)
    ∧ (∀ ru u n nb br, ru ≠ "" →
        (V4.normalizeBody none (some ru) u n nb br).url = some ru)
    ∧ (∀ u n nb br, (V4.normalizeBody none none u n nb br).url = u)
    ∧ (∀ r ru u rv, P3.pickUrl (some r) ru u rv = some r)
    ∧ (∀ r ru u lk, r ≠ "" → P1.pickUrl (some r) ru u lk = some r) := by
  refine ⟨?_, ?_, ?_, ?_, ?_⟩
  · intro r ru u n nb br hr
    simp [V4.normalizeBody, jsOr, jsTruthy?, strEmpty_false r hr]
  · intro ru u n nb br hru
    simp [V4.normalizeBody, jsOr, jsTruthy?, strEmpty_false ru hru]
  · intro u n nb br
    simp [V4.normalizeBody, jsOr, jsTruthy?]
  · intro r ru u rv
    simp [P3.pickUrl, jsNullish]
  · intro r ru u lk hr
    simp [P1.pickUrl, jsOr, jsTruthy?, strEmpty_false r hr]

theorem C9_url_precedence_witness :
    (V4.normalizeBody (some "https://a.example/v.mp4") none
        (some "https://b.example/other.mp4") none none none).url
      = some "https://a.example/v.mp4" :=
  C9_url_precedence.1 "https://a.example/v.mp4" none (some "https://b.example/other.mp4")
    none none none (by decide)

/-- A filter misses length when some member fails the predicate. -/
theorem length_filter_lt_of_mem_false (l : List Int) (p : Int → Bool) (x : Int)
    (hx : x ∈ l) (hpx : p x = false) : (l.filter p).length < l.length := by
  induction l with
  | nil => cases hx
  | cons a t ih =>
    rcases List.mem_cons.mp hx with rfl | hxt
    · have hle := List.length_filter_le p t
      simp [List.filter_cons, hpx]
      omega
    · have hlt := ih hxt
      cases hpa : p a <;> simp [List.filter_cons, hpa] <;> omega

/-- A granted `takeSlot` pass leaves at most `MAX_RPM` recorded starts, all
inside the window ending at the grant time. -/
theorem takeSlotStep_granted_inv (now : Int) (starts s : List Int)
    (h : P3.takeSlotStep now starts = P3.StepOut.granted s) :
    s.length ≤ P3.MAX_RPM ∧ ∀ x ∈ s, now - x < P3.WINDOW_MS := by
  simp only [P3.takeSlotStep] at h
  split at h
  · injection h with h2
    subst h2
    constructor
    · rw [List.length_append]
      simp only [List.length_singleton]
      omega
    · intro x hx
      rcases List.mem_append.mp hx with hx1 | hx2
      · have hmf := (List.mem_filter.mp hx1).2
        simpa using hmf
      · have hx3 : x = now := by simpa using hx2
        subst hx3
        simp [P3.WINDOW_MS]
  · exact absurd h (by simp)

/-- While the window is full, one wait of the computed duration expires at
least the oldest recorded start, so the pruned window strictly shrinks. -/
theorem pruneW_step_decrease (now : Int) (starts : List Int)
    (hlen : ¬ (P3.pruneW now starts).length < P3.MAX_RPM) :
    (P3.pruneW (now + (P3.WINDOW_MS - (now - (P3.pruneW now starts).headI) + 5))
        (P3.pruneW now starts)).length
      < (P3.pruneW now starts).length := by
  have hne : P3.pruneW now starts ≠ [] := by
    intro hnil
    rw [hnil] at hlen
    simp [P3.MAX_RPM] at hlen
  have hmem : (P3.pruneW now starts).headI ∈ P3.pruneW now starts := by
    cases hp : P3.pruneW now starts with
    | nil => exact absurd hp hne
    | cons a t => simp [List.headI]
  simp only [P3.pruneW] at hmem ⊢
  apply length_filter_lt_of_mem_false _ _ _ hmem
  rw [decide_eq_false_iff_not]
  simp only [P3.WINDOW_MS]
  omega

/-- With fuel exceeding the pruned-window size, `takeSlot` always returns
(the caller is suspended while full, never dropped). -/
theorem takeSlotLoop_succeeds (fuel : Nat) :
    ∀ now starts, (P3.pruneW now starts).length < fuel →
      (P3.takeSlotLoop fuel now starts).isSome = true := by
  induction fuel with
  | zero => intro now starts h; omega
  | succ f ih =>
    intro now starts h
    simp only [P3.takeSlotLoop]
    cases hstep : P3.takeSlotStep now starts with
    | granted s => rfl
    | waitFor ms s =>
      show (P3.takeSlotLoop f (now + ms) s).isSome = true
      simp only [P3.takeSlotStep] at hstep
      split at hstep
      · exact absurd hstep (by simp)
      · rename_i hlen
        injection hstep with hms hs
        subst hms
        subst hs
        apply ih
        have hdec := pruneW_step_decrease now starts hlen
        omega

/-- Any successful `takeSlot` return satisfies the window invariant. -/
theorem takeSlotLoop_inv (fuel : Nat) :
    ∀ now starts t s, P3.takeSlotLoop fuel now starts = some (t, s) →
      s.length ≤ P3.MAX_RPM ∧ ∀ x ∈ s, t - x < P3.WINDOW_MS := by
  induction fuel with
  | zero => intro now starts t s h; simp [P3.takeSlotLoop] at h
  | succ f ih =>
    intro now starts t s h
    simp only [P3.takeSlotLoop] at h
    cases hstep : P3.takeSlotStep now starts with
    | granted s2 =>
      rw [hstep] at h
      simp only [Option.some.injEq, Prod.mk.injEq] at h
      obtain ⟨h1, h2⟩ := h
      subst h1
      subst h2
      exact takeSlotStep_granted_inv now starts _ hstep
    | waitFor ms s2 =>
      rw [hstep] at h
      exact ih _ _ _ _ h

/-- C10: part_003's `takeSlot` suspends but never drops a caller — with fuel
`starts.length + 1` the sequential loop always returns — and whenever it
returns and records a new start, at most MAX_RPM = 10 recorded starts
(including the new one) lie within the preceding WINDOW_MS = 60000 ms
window. -/
theorem C10_rate_limiter_invariant :
    (∀ (now : Int) (starts : List Int),
        (P3.takeSlotLoop (starts.length + 1) now starts).isSome = true)
    ∧ (∀ (fuel : Nat) (now t : Int) (starts s : List Int),
        P3.takeSlotLoop fuel now starts = some (t, s) →
        s.length ≤ P3.MAX_RPM ∧ ∀ x ∈ s, t - x < P3.WINDOW_MS) := by
  constructor
  · intro now starts
    apply takeSlotLoop_succeeds
    have hle : (P3.pruneW now starts).length ≤ starts.length := by
      simp only [P3.pruneW]
      exact List.length_filter_le _ _
    omega
  · intro fuel now t starts s h
    exact takeSlotLoop_inv fuel now starts t s h

theorem C10_rate_limiter_invariant_witness :
    (P3.takeSlotLoop 1 100000 []).isSome = true
    ∧ (([(100000 : Int)] : List Int).length ≤ P3.MAX_RPM
        ∧ ∀ x ∈ ([(100000 : Int)] : List Int), (100000 : Int) - x < P3.WINDOW_MS) :=
  ⟨C10_rate_limiter_invariant.1 100000 [],
   C10_rate_limiter_invariant.2 1 100000 100000 [] [100000] (by decide)⟩
